import Mathlib

/-!
# Verification of the little-plains-archive capture pipeline

A shallow embedding of the pipeline core of the repository
(URL normalization and classification, the Twitter/X scraper fallback
chain, the YouTube scraper, media materialization, AI categorization
with its deterministic fallback, the capture state machine, and the
query-time search scoring), together with theorems settling the frozen
claims C1 to C10 about it.

Modelling conventions:
  * JavaScript strings are Lean `String`s; all character-level work is
    done on `String.data` (`List Char`) with small explicit helpers, so
    every definition evaluates by kernel reduction.
  * JavaScript `undefined`/absent values are `Option`.
  * Platform primitives (the WHATWG URL parser, `JSON.parse`,
    `Date.toISOString`, `fetch`, the regex engine) enter the model as
    explicit inputs: a function is given the parsed URL, the parsed
    JSON value, or the outcome of a network call, and the model encodes
    everything the source does with that outcome.
  * Fallible code returns `Except` or `Option`.
-/

namespace LittlePlains

/-! ## Character and string helpers (ASCII models of the JS built-ins) -/

/-- ASCII lower-casing of one character (model of JS `toLowerCase` on the
ASCII inputs exercised here). -/
def charLower (c : Char) : Char :=
  if 'A' ≤ c ∧ c ≤ 'Z' then Char.ofNat (c.toNat + 32) else c

/-- Lower-case a string character by character. -/
def strLower (s : String) : String :=
  String.mk (s.data.map charLower)

/-- Does the pattern `pat` occur as a contiguous run inside `l`?
Model of JS `String.prototype.includes`. -/
def listContainsSub (pat : List Char) : List Char → Bool
  | [] => pat.isEmpty
  | c :: t => pat.isPrefixOf (c :: t) || listContainsSub pat t

/-- Does `pat` occur as a substring of `s`? -/
def strContains (s pat : String) : Bool :=
  listContainsSub pat.data s.data

/-- Case-insensitive substring test (both sides ASCII-lowered). -/
def strContainsCI (s pat : String) : Bool :=
  strContains (strLower s) (strLower pat)

/-- Model of JS `startsWith`. -/
def strStarts (s pat : String) : Bool :=
  pat.data.isPrefixOf s.data

/-- Model of JS `endsWith`. -/
def strEnds (s pat : String) : Bool :=
  pat.data.isSuffixOf s.data

/-- Model of JS `slice(0, n)` on a string. -/
def strTake (s : String) (n : Nat) : String :=
  String.mk (s.data.take n)

/-- Model of JS `slice(0, -1)` (drop the final character). -/
def strDropLast (s : String) : String :=
  String.mk (s.data.dropLast)

/-- Join a list of strings with a separator (model of `Array.join`). -/
def joinSep (sep : String) : List String → String
  | [] => ""
  | [x] => x
  | x :: xs => x ++ sep ++ joinSep sep xs

/-- Remove the first occurrence of character `p` from a string: model of
JS `replace(p, '')` with a one-character string pattern. -/
def removeFirstChar (p : Char) (s : String) : String :=
  String.mk (go s.data)
where
  go : List Char → List Char
    | [] => []
    | c :: t => if c = p then t else c :: go t

/-- Model of JS `replace('/', '')`. -/
def removeFirstSlash (s : String) : String :=
  removeFirstChar '/' s

/-- Model of JS `split('/')`, keeping empty segments. -/
def splitSlash (s : String) : List String :=
  (go s.data [] []).reverse
where
  go : List Char → List Char → List String → List String
    | [], cur, acc => String.mk cur.reverse :: acc
    | c :: t, cur, acc =>
        if c = '/' then go t [] (String.mk cur.reverse :: acc)
        else go t (c :: cur) acc

/-- JS truthiness of an optional string: `undefined` and the empty
string are falsy. -/
def strTruthy : Option String → Bool
  | none => false
  | some s => s ≠ ""

/-- Model of JS `a || b` where `a` is an optional string and `b` a
default: returns `a` when it is truthy, else `b`. -/
def strOr (a : Option String) (b : String) : String :=
  match a with
  | some s => if s = "" then b else s
  | none => b

/-- Model of JS `a || b` where both sides may be `undefined`: the value
is `a` when truthy, else `b` (which may itself be falsy). -/
def strOrOpt (a b : Option String) : Option String :=
  if strTruthy a then a else b

/-! ## A small JSON value type (the output of `JSON.parse`) -/

/-- Values produced by `JSON.parse`.  Numbers are modelled as integers:
no claim exercises fractional numerics. -/
inductive Json where
  | null
  | bool (b : Bool)
  | num (n : Int)
  | str (s : String)
  | arr (elems : List Json)
  | obj (fields : List (String × Json))

/-- JS truthiness of a JSON value (objects and arrays are always
truthy). -/
def jsTruthy : Json → Bool
  | .null => false
  | .bool b => b
  | .num n => n ≠ 0
  | .str s => s ≠ ""
  | .arr _ => true
  | .obj _ => true

mutual

/-- Model of the JS `String(...)` conversion on JSON values. -/
def jsString : Json → String
  | .null => "null"
  | .bool true => "true"
  | .bool false => "false"
  | .num n => toString n
  | .str s => s
  | .arr l => jsStringArr l
  | .obj _ => "[object Object]"

/-- Array-to-string: elements joined with commas, `null` printed as the
empty string (JS `Array.prototype.toString`). -/
def jsStringArr : List Json → String
  | [] => ""
  | [.null] => ""
  | [x] => jsString x
  | .null :: xs => "," ++ jsStringArr xs
  | x :: xs => jsString x ++ "," ++ jsStringArr xs

end

/-- Property access `j.key` on a parsed JSON value: `none` models JS
`undefined` (non-objects have no own properties). -/
def jGet : Json → String → Option Json
  | .obj fields, key => (fields.find? (fun kv => kv.1 = key)).map (·.2)
  | _, _ => none

/-- Model of JS `x || d` on an accessed JSON property. -/
def jsOr (x : Option Json) (d : Json) : Json :=
  match x with
  | some v => if jsTruthy v then v else d
  | none => d

/-! ## Core data model (packages/core/src/types.ts) -/

/-- Source platform classification. -/
inductive SourceType where
  | twitter | instagram | linkedin | pinterest | youtube | web | slack
deriving DecidableEq

/-- Content type classification. -/
inductive ContentType where
  | post | article | thread | image | video
deriving DecidableEq

/-- Capture lifecycle status. -/
inductive CaptureStatus where
  | pending | processing | complete | failed
deriving DecidableEq

/-- An extracted image reference (`MediaItem`). -/
structure MediaItem where
  url : String
  width : Option Nat := none
  height : Option Nat := none
  alt : Option String := none
deriving DecidableEq

/-- An extracted video reference (`VideoItem`).  Durations are carried
as integers (seconds or milliseconds as the source computes them). -/
structure VideoItem where
  url : String
  thumbnail : Option String := none
  duration : Option Int := none
deriving DecidableEq

/-- The output of a scraper (`ExtractedContent`).  `platformData` is the
free-form metadata record. -/
structure ExtractedContent where
  title : Option String := none
  description : Option String := none
  bodyText : Option String := none
  authorName : Option String := none
  authorHandle : Option String := none
  publishedAt : Option String := none
  images : List MediaItem := []
  videos : List VideoItem := []
  screenshot : Option String := none
  platformData : List (String × Json) := []

/-- The categorizer output (`AnalysisResult`). -/
structure AnalysisResult where
  summary : String
  topics : List String
  discipline : String
  useCases : List String
  contentType : ContentType

/-! ## Normalizer and classifier (packages/core/src/schemas.ts) -/

/-- Model of `detectSourceType`: substring tests against the lower-cased
full URL string, in the fixed order the source checks them. -/
def detectSourceType (url : String) : SourceType :=
  let urlLower := strLower url
  if strContains urlLower "twitter.com" || strContains urlLower "x.com" then
    .twitter
  else if strContains urlLower "instagram.com" then
    .instagram
  else if strContains urlLower "youtube.com" || strContains urlLower "youtu.be" then
    .youtube
  else if strContains urlLower "linkedin.com" then
    .linkedin
  else if strContains urlLower "pinterest.com" || strContains urlLower "pin.it" then
    .pinterest
  else
    .web

/-- The per-platform hostname substrings, in the order the source tests
them. -/
def platformPatterns : List (SourceType × List String) :=
  [ (.twitter, ["twitter.com", "x.com"])
  , (.instagram, ["instagram.com"])
  , (.youtube, ["youtube.com", "youtu.be"])
  , (.linkedin, ["linkedin.com"])
  , (.pinterest, ["pinterest.com", "pin.it"]) ]

/-- First-match classification over an ordered pattern list: the
characterization the code actually implements (amended C2). -/
def firstMatchClassify (url : String) : SourceType :=
  go platformPatterns
where
  go : List (SourceType × List String) → SourceType
    | [] => .web
    | (st, pats) :: rest =>
        if pats.any (fun p => strContains (strLower url) p) then st else go rest

/-- All pattern list entries flattened to (platform, pattern) pairs. -/
def platformPatternPairs : List (SourceType × String) :=
  (platformPatterns.map (fun (st, pats) => pats.map (fun p => (st, p)))).flatten

/-- Of a list of (platform, matching pattern) pairs, keep the one whose
pattern is strictly longest (earlier entries win ties). -/
def pickLongest : List (SourceType × String) → Option (SourceType × String)
  | [] => none
  | x :: rest =>
      match pickLongest rest with
      | none => some x
      | some y => if x.2.length < y.2.length then some y else some x

/-- Modelled from the spec: classification by the LONGEST listed
hostname substring occurring in the URL hostname, `web` when none
occurs (the rule claim C2 states).  `host` is the hostname of the
parsed URL. -/
def specLongestMatchClassify (host : String) : SourceType :=
  let hits := platformPatternPairs.filter (fun sp => strContains (strLower host) sp.2)
  match pickLongest hits with
  | some (st, _) => st
  | none => .web

/-! ## URL validation and normalization (packages/core/src/schemas.ts) -/

/-- A parsed WHATWG URL, as produced by `new URL(url)`: the platform
parser is a primitive, so `validateUrl` is modelled on its output.
`query` is the search parameter list in order; `fragment` is without
the leading `#`. -/
structure ParsedUrl where
  protocol : String
  hostname : String
  port : Option Nat := none
  pathname : String
  query : List (String × String) := []
  fragment : Option String := none

/-- Serialization back to `href`.  Percent-encoding is not modelled:
all inputs exercised here are ASCII-safe. -/
def ParsedUrl.href (u : ParsedUrl) : String :=
  u.protocol ++ "//" ++ u.hostname ++
    (match u.port with
     | some p => ":" ++ toString p
     | none => "") ++
  u.pathname ++
    (match u.query with
     | [] => ""
     | q => "?" ++ joinSep "&" (q.map (fun kv => kv.1 ++ "=" ++ kv.2))) ++
    (match u.fragment with
     | some f => "#" ++ f
     | none => "")

/-- The enumerated tracking query parameters the normalizer strips. -/
def TRACKING_PARAMS : List String :=
  [ "utm_source", "utm_medium", "utm_campaign", "utm_content", "utm_term"
  , "igsh", "igshid", "ig_rid"
  , "s", "t"
  , "ref", "ref_src", "ref_url"
  , "fbclid", "gclid", "gclsrc"
  , "mc_cid", "mc_eid"
  , "_ga", "_gl" ]

/-- Model of `validateUrl` on an already-parsed URL (`none` models the
`{ valid: false }` returns; the unparseable-input branch is upstream of
this model, in the platform parser).  Follows the source: protocol
check, `searchParams.delete` for every tracking parameter, hostname
lower-casing, serialization, then removal of one trailing `'/'` from
the serialized URL when it ends with one and the path is not root. -/
def validateUrl (parsed : ParsedUrl) : Option String :=
  if ¬ (parsed.protocol = "http:" ∨ parsed.protocol = "https:") then
    none
  else
    let p1 := { parsed with
      query := parsed.query.filter (fun kv => ¬ kv.1 ∈ TRACKING_PARAMS) }
    let p2 := { p1 with hostname := strLower p1.hostname }
    let normalized := p2.href
    some (if strEnds normalized "/" ∧ p2.pathname ≠ "/" then
            strDropLast normalized
          else normalized)

/-- The spec-side path-level trailing-slash strip: remove one trailing
slash from the PATH, only when the path is not root. -/
def stripTrailingSlashPath (p : String) : String :=
  if p ≠ "/" ∧ strEnds p "/" then strDropLast p else p

/-- The normalization claim C10 states: the output differs from the
parsed input only by tracking-parameter removal, hostname lower-casing
and removal of at most one trailing slash on a non-root PATH; scheme,
port, fragment and the remaining query parameters are preserved. -/
def specNormalizeUrl (parsed : ParsedUrl) : String :=
  ParsedUrl.href
    { parsed with
      query := parsed.query.filter (fun kv => ¬ kv.1 ∈ TRACKING_PARAMS)
      hostname := strLower parsed.hostname
      pathname := stripTrailingSlashPath parsed.pathname }

/-- The amended normalization: same parameter removal and hostname
lower-casing, but the trailing-slash removal acts on the last character
of the full serialized URL (which may belong to the query or fragment),
guarded by the path not being root. -/
def specAmendedNormalizeUrl (parsed : ParsedUrl) : String :=
  let s := ParsedUrl.href
    { parsed with
      query := parsed.query.filter (fun kv => ¬ kv.1 ∈ TRACKING_PARAMS)
      hostname := strLower parsed.hostname }
  if strEnds s "/" ∧ parsed.pathname ≠ "/" then strDropLast s else s

/-! ## Categorizer (packages/analyzer: ContentAnalyzer) -/

namespace ContentAnalyzer

/-- Model of `normalizeArray`: keep only string entries, truncated to
`maxLength`.  No minimum is imposed. -/
def normalizeArray (x : Option Json) (maxLength : Nat) : List String :=
  match x with
  | some (.arr l) =>
      ((l.filterMap (fun j => match j with
        | .str s => some s
        | _ => none)).take maxLength)
  | _ => []

/-- The content type enum strings the source validates against. -/
def validTypes : List String := ["post", "article", "thread", "image", "video"]

/-- Decode one of the five enum strings (already lower-cased). -/
def decodeContentType (s : String) : ContentType :=
  if s = "article" then .article
  else if s = "thread" then .thread
  else if s = "image" then .image
  else if s = "video" then .video
  else .post

/-- Model of `normalizeContentType`: a case-insensitive member of the
enum passes (lower-cased); anything else defaults to `post`. -/
def normalizeContentType (x : Option Json) : ContentType :=
  match x with
  | some (.str s) =>
      if strLower s ∈ validTypes then decodeContentType (strLower s) else .post
  | _ => .post

/-- Model of `parseResponse` applied to the JSON value the platform
parser produced (`none` models a `JSON.parse` throw).  A parsed `null`
makes the property accesses throw a TypeError inside the same `try`,
so it also yields the parse error. -/
def parseResponseJson (parsed : Option Json) : Except String AnalysisResult :=
  match parsed with
  | none => .error "Invalid JSON response from Claude"
  | some .null => .error "Invalid JSON response from Claude"
  | some j =>
      .ok
        { summary := strTake (jsString (jsOr (jGet j "summary") (.str ""))) 500
          topics := normalizeArray (jGet j "topics") 5
          discipline := jsString (jsOr (jGet j "discipline") (.str "General"))
          useCases := normalizeArray (jGet j "useCases") 3
          contentType := normalizeContentType (jGet j "contentType") }

/-- The fixed placeholder summary of the fallback. -/
def placeholderSummary : String := "Content saved for later reference."

/-- Model of `getFallbackAnalysis`: deterministic keyword-based
categorization used when the generation call or its parsing fails. -/
def getFallbackAnalysis (content : ExtractedContent) (sourceType : SourceType) :
    AnalysisResult :=
  let text := strLower
    (strOr content.title "" ++ " " ++ strOr content.description "" ++ " " ++
      strOr content.bodyText "")
  let topics :=
    (if strContains text "ai" || strContains text "artificial intelligence" ||
        strContains text "machine learning" then ["AI"] else []) ++
    (if strContains text "design" || strContains text "ui" ||
        strContains text "ux" then ["Design"] else []) ++
    (if strContains text "business" || strContains text "startup" ||
        strContains text "company" then ["Business"] else []) ++
    (if strContains text "code" || strContains text "programming" ||
        strContains text "developer" then ["Technology"] else [])
  let topics := if topics = [] then ["General"] else topics
  -- Sequential contentType reassignments of the source, last hit wins.
  let contentType : ContentType :=
    if content.images ≠ [] ∧ ¬ strTruthy content.bodyText then .image
    else if content.videos ≠ [] then .video
    else if sourceType = .web ∧
        (match content.bodyText with | some s => s.length | none => 0) > 1000 then
      .article
    else .post
  { summary := strOr content.description (strOr content.title placeholderSummary)
    topics := topics
    discipline := "General"
    useCases := ["Reference"]
    contentType := contentType }

/-- Model of `analyze`: the outcome of the generation call is the
input.  `Except.error` covers an API error or a response without a text
block; `Except.ok parsed` carries the `JSON.parse` outcome of the
(code-fence-stripped) response text.  Any failure, including the parse
throw inside `parseResponse`, lands in the catch and yields the
fallback. -/
def analyze (call : Except String (Option Json)) (content : ExtractedContent)
    (sourceType : SourceType) : AnalysisResult :=
  match call with
  | .error _ => getFallbackAnalysis content sourceType
  | .ok parsed =>
      match parseResponseJson parsed with
      | .ok r => r
      | .error _ => getFallbackAnalysis content sourceType

end ContentAnalyzer

/-! ## Twitter/X scraper fallback chain (packages/scrapers/src/twitter.ts) -/

/-- The `Date` platform primitive, passed in explicitly:
`fromString s` is the result of `new Date(s).toISOString()` (with
`none` when the conversion threw inside the guarding `try`), and
`fromMillis n` the result for a numeric timestamp. -/
structure DateOracle where
  fromString : String → Option String
  fromMillis : Int → String

/-- The outcome of one `fetch` whose body was JSON-decoded into `α`:
either the awaited call threw, or it responded with an `ok` flag, a
status, and the decoded payload. -/
inductive FetchOutcome (α : Type) where
  | thrown (msg : String)
  | resp (ok : Bool) (status : Nat) (data : α)

/-- FxTwitter response payload: tweet author. -/
structure FxAuthor where
  name : String
  screen_name : String
  avatar_url : Option String := none

/-- FxTwitter response payload: one photo. -/
structure FxPhoto where
  url : String
  width : Option Nat := none
  height : Option Nat := none

/-- FxTwitter response payload: one video. -/
structure FxVideo where
  url : String
  thumbnail_url : Option String := none
  duration : Option Int := none

/-- FxTwitter response payload: media collections. -/
structure FxMedia where
  photos : Option (List FxPhoto) := none
  videos : Option (List FxVideo) := none

/-- FxTwitter response payload: the tweet. -/
structure FxTweet where
  id : String
  text : String
  author : FxAuthor
  replies : Option Int := none
  retweets : Option Int := none
  likes : Option Int := none
  bookmarks : Option Int := none
  created_at : Option String := none
  created_timestamp : Option Int := none
  views : Option Int := none
  media : Option FxMedia := none

/-- FxTwitter response envelope. -/
structure FxTwitterResponse where
  code : Int
  message : String
  tweet : Option FxTweet := none

/-- Encode an optional integer as free-form platform metadata
(`undefined` modelled as JSON null). -/
def optNumJson : Option Int → Json
  | some n => .num n
  | none => .null

/-- Encode an optional string as free-form platform metadata. -/
def optStrJson : Option String → Json
  | some s => .str s
  | none => .null

/-- The tweet-text-derived title: first 100 characters, with an
ellipsis appended when the text is longer. -/
def tweetTitle (text : String) : String :=
  strTake text 100 ++ (if text.length > 100 then "..." else "")

namespace TwitterScraper

/-- Model of `fetchFromFxTwitter` on the outcome of its `fetch`:
non-ok status, non-200 payload code and missing tweet all throw, which
the chain in `scrape` records; otherwise the tweet is normalized into
`ExtractedContent`. -/
def fetchFromFxTwitter (d : DateOracle) (env : FetchOutcome FxTwitterResponse) :
    Except String ExtractedContent :=
  match env with
  | .thrown m => .error m
  | .resp ok status data =>
      if ¬ ok then .error ("FxTwitter API returned " ++ toString status)
      else
        match data.tweet with
        | none => .error (if data.message = "" then "Tweet not found" else data.message)
        | some tweet =>
            if data.code ≠ 200 then
              .error (if data.message = "" then "Tweet not found" else data.message)
            else
              let images := (match tweet.media with
                | some m => (m.photos.getD []).map (fun p => { url := p.url })
                | none => [])
              let videos := (match tweet.media with
                | some m => (m.videos.getD []).map (fun v =>
                    ({ url := v.url, thumbnail := v.thumbnail_url,
                       duration := v.duration } : VideoItem))
                | none => [])
              let publishedAt :=
                match tweet.created_at with
                | some s =>
                    if s ≠ "" then d.fromString s
                    else matchTimestamp d tweet.created_timestamp
                | none => matchTimestamp d tweet.created_timestamp
              .ok
                { title := some (tweetTitle tweet.text)
                  description := some tweet.text
                  bodyText := some tweet.text
                  authorName := some tweet.author.name
                  authorHandle := some ("@" ++ tweet.author.screen_name)
                  publishedAt := publishedAt
                  images := images
                  videos := videos
                  platformData :=
                    [ ("tweetId", .str tweet.id)
                    , ("retweetCount", optNumJson tweet.retweets)
                    , ("likeCount", optNumJson tweet.likes)
                    , ("replyCount", optNumJson tweet.replies)
                    , ("viewCount", optNumJson tweet.views)
                    , ("bookmarkCount", optNumJson tweet.bookmarks)
                    , ("profileImageUrl", optStrJson tweet.author.avatar_url) ] }
where
  /-- The `else if (tweet.created_timestamp)` branch (truthy: nonzero). -/
  matchTimestamp (d : DateOracle) : Option Int → Option String
    | some ts => if ts ≠ 0 then some (d.fromMillis (ts * 1000)) else none
    | none => none

/-- VxTwitter payload: one extended media entry. -/
structure VxMediaExt where
  type : Option String := none
  url : Option String := none
  thumbnail_url : Option String := none
  duration_millis : Option Int := none

/-- VxTwitter response payload. -/
structure VxData where
  tweetID : Option String := none
  text : String := ""
  user_name : Option String := none
  user_screen_name : Option String := none
  date : Option String := none
  date_epoch : Option Int := none
  mediaURLs : Option (List String) := none
  media_extended : Option (List VxMediaExt) := none
  retweets : Option Int := none
  likes : Option Int := none
  replies : Option Int := none
  user_profile_image_url : Option String := none

/-- The outcome of the VxTwitter `fetch`: the raw body text is kept
(the source sniffs it for HTML) together with the `JSON.parse`
outcome of that text. -/
inductive VxOutcome where
  | thrown (msg : String)
  | resp (ok : Bool) (status : Nat) (text : String) (parsed : Except String VxData)

/-- Model of `fetchFromVxTwitter`: non-ok status, HTML masquerading as
JSON, a JSON parse throw, and a missing `tweetID` all throw; otherwise
the payload is normalized. -/
def fetchFromVxTwitter (d : DateOracle) (env : VxOutcome) :
    Except String ExtractedContent :=
  match env with
  | .thrown m => .error m
  | .resp ok status text parsed =>
      if ¬ ok then .error ("VxTwitter API returned " ++ toString status)
      else if strStarts text "<!DOCTYPE" || strStarts text "<html" then
        .error "VxTwitter returned HTML instead of JSON"
      else
        match parsed with
        | .error m => .error m
        | .ok data =>
            if ¬ strTruthy data.tweetID then .error "Tweet not found"
            else
              let images := (data.mediaURLs.getD []).filterMap (fun u =>
                if ¬ (strContains u ".mp4" || strContains u "/video/") then
                  some ({ url := u } : MediaItem)
                else none)
              let videos := (data.media_extended.getD []).filterMap (fun m =>
                if m.type = some "video" ∧ strTruthy m.url then
                  some ({ url := m.url.getD ""
                          thumbnail := m.thumbnail_url
                          duration := match m.duration_millis with
                            | some ms => if ms ≠ 0 then some (ms / 1000) else none
                            | none => none } : VideoItem)
                else none)
              let publishedAt :=
                match data.date with
                | some s =>
                    if s ≠ "" then d.fromString s
                    else matchEpoch d data.date_epoch
                | none => matchEpoch d data.date_epoch
              .ok
                { title := some (tweetTitle data.text)
                  description := some data.text
                  bodyText := some data.text
                  authorName := data.user_name
                  authorHandle := some ("@" ++ data.user_screen_name.getD "undefined")
                  publishedAt := publishedAt
                  images := images
                  videos := videos
                  platformData :=
                    [ ("tweetId", optStrJson data.tweetID)
                    , ("retweetCount", optNumJson data.retweets)
                    , ("likeCount", optNumJson data.likes)
                    , ("replyCount", optNumJson data.replies)
                    , ("profileImageUrl", optStrJson data.user_profile_image_url) ] }
where
  /-- The `else if (data.date_epoch)` branch. -/
  matchEpoch (d : DateOracle) : Option Int → Option String
    | some e => if e ≠ 0 then some (d.fromMillis (e * 1000)) else none
    | none => none

end TwitterScraper

/-- Apify payload: one video variant. -/
structure ApifyVariant where
  url : Option String := none
  bitrate : Option Int := none
  content_type : Option String := none

/-- Apify payload: `video_info` of a media entity. -/
structure ApifyVideoInfo where
  duration_millis : Option Int := none
  variants : Option (List ApifyVariant) := none

/-- Apify payload: one entry of `entities.media` /
`extended_entities.media`. -/
structure ApifyMediaEntity where
  media_url_https : Option String := none
  type : Option String := none
  video_info : Option ApifyVideoInfo := none

/-- Apify payload: `entities` / `extended_entities` wrapper. -/
structure ApifyEntities where
  media : Option (List ApifyMediaEntity) := none

/-- Apify payload: one entry of the flat `media`/`photos`/`videos`
arrays some actors return. -/
structure ApifySimpleMedia where
  url : Option String := none
  type : Option String := none
  thumbnailUrl : Option String := none
  duration : Option Int := none

/-- Apify payload: nested `user` object. -/
structure ApifyUser where
  name : Option String := none
  screen_name : Option String := none
  profile_image_url_https : Option String := none

/-- Apify payload: nested `author` object. -/
structure ApifyAuthor where
  userName : Option String := none
  displayName : Option String := none
  profileImageUrl : Option String := none

/-- The heterogeneous record shape the different Apify actors return
(`ApifyTweetResult`). -/
structure ApifyTweetResult where
  id : Option String := none
  id_str : Option String := none
  tweetId : Option String := none
  rest_id : Option String := none
  text : Option String := none
  full_text : Option String := none
  rawContent : Option String := none
  content : Option String := none
  created_at : Option String := none
  createdAt : Option String := none
  date : Option String := none
  user : Option ApifyUser := none
  author : Option ApifyAuthor := none
  userName : Option String := none
  displayName : Option String := none
  authorName : Option String := none
  authorHandle : Option String := none
  profileImageUrl : Option String := none
  entities : Option ApifyEntities := none
  extended_entities : Option ApifyEntities := none
  media : Option (List ApifySimpleMedia) := none
  photos : Option (List ApifySimpleMedia) := none
  videos : Option (List ApifySimpleMedia) := none
  retweet_count : Option Int := none
  retweetCount : Option Int := none
  favorite_count : Option Int := none
  likeCount : Option Int := none
  reply_count : Option Int := none
  replyCount : Option Int := none

namespace TwitterScraper

/-- Of the mp4 variants, the first one of maximal `bitrate || 0`
(what the stable descending `sort(...)[0]` of the source selects). -/
def pickBestVariant (l : List ApifyVariant) : Option ApifyVariant :=
  l.foldl (fun acc v =>
    match acc with
    | none => some v
    | some b => if v.bitrate.getD 0 > b.bitrate.getD 0 then some v else some b) none

/-- Append `item` unless an element with the same url is present
(models the `!xs.some((x) => x.url === url)` dedup pushes). -/
def pushNoDupImage (acc : List MediaItem) (u : String) : List MediaItem :=
  if acc.any (fun i => i.url = u) then acc else acc ++ [{ url := u }]

/-- Dedup push for videos. -/
def pushNoDupVideo (acc : List VideoItem) (v : VideoItem) : List VideoItem :=
  if acc.any (fun w => w.url = v.url) then acc else acc ++ [v]

/-- Model of `parseApifyTweet`: per-provider normalization of one raw
Apify record into `ExtractedContent`. -/
def parseApifyTweet (d : DateOracle) (tweet : ApifyTweetResult) : ExtractedContent :=
  let text := strOr tweet.full_text
    (strOr tweet.text (strOr tweet.rawContent (strOr tweet.content "")))
  let userName := strOrOpt (tweet.user.bind (·.screen_name))
    (strOrOpt (tweet.author.bind (·.userName))
      (strOrOpt tweet.userName (tweet.authorHandle.map (removeFirstChar '@'))))
  let displayName := strOrOpt (tweet.user.bind (·.name))
    (strOrOpt (tweet.author.bind (·.displayName))
      (strOrOpt tweet.displayName tweet.authorName))
  let profileImage := strOrOpt (tweet.user.bind (·.profile_image_url_https))
    (strOrOpt (tweet.author.bind (·.profileImageUrl)) tweet.profileImageUrl)
  -- `tweet.extended_entities?.media || tweet.entities?.media || []`
  -- (an empty array is truthy, so only `undefined` falls through).
  let mediaEntities :=
    ((tweet.extended_entities.bind (·.media)).or
      (tweet.entities.bind (·.media))).getD []
  let images := mediaEntities.foldl (fun acc m =>
    match m.media_url_https with
    | some u => if m.type = some "photo" ∧ u ≠ "" then acc ++ [{ url := u }] else acc
    | none => acc) []
  let images := (tweet.media.getD []).foldl (fun acc m =>
    match m.url with
    | some u => if m.type = some "photo" ∧ u ≠ "" then pushNoDupImage acc u else acc
    | none => acc) images
  let images := (tweet.photos.getD []).foldl (fun acc p =>
    match p.url with
    | some u => if u ≠ "" then pushNoDupImage acc u else acc
    | none => acc) images
  let videos := mediaEntities.foldl (fun acc m =>
    match m.video_info with
    | some vi =>
        if m.type = some "video" ∨ m.type = some "animated_gif" then
          let mp4s := (vi.variants.getD []).filter
            (fun v => v.content_type = some "video/mp4")
          match pickBestVariant mp4s with
          | some best =>
              match best.url with
              | some u =>
                  if u ≠ "" then
                    acc ++ [{ url := u
                              thumbnail := m.media_url_https
                              duration := match vi.duration_millis with
                                | some ms => if ms ≠ 0 then some (ms / 1000) else none
                                | none => none }]
                  else acc
              | none => acc
          | none => acc
        else acc
    | none => acc) []
  let videos := (tweet.media.getD []).foldl (fun acc m =>
    match m.url with
    | some u =>
        if m.type = some "video" ∧ u ≠ "" then
          pushNoDupVideo acc { url := u, thumbnail := m.thumbnailUrl, duration := m.duration }
        else acc
    | none => acc) videos
  let videos := (tweet.videos.getD []).foldl (fun acc v =>
    match v.url with
    | some u =>
        if u ≠ "" then
          pushNoDupVideo acc { url := u, thumbnail := v.thumbnailUrl, duration := v.duration }
        else acc
    | none => acc) videos
  let publishedAt :=
    match strOrOpt tweet.created_at (strOrOpt tweet.createdAt tweet.date) with
    | some s => if s ≠ "" then d.fromString s else none
    | none => none
  let tweetIdOut := strOrOpt tweet.id
    (strOrOpt tweet.id_str (strOrOpt tweet.tweetId tweet.rest_id))
  { title := some (tweetTitle text)
    description := some text
    bodyText := some text
    authorName := displayName
    authorHandle := match userName with
      | some u => if u ≠ "" then some ("@" ++ u) else none
      | none => none
    publishedAt := publishedAt
    images := images
    videos := videos
    platformData :=
      [ ("tweetId", optStrJson tweetIdOut)
      , ("retweetCount", optNumJson (tweet.retweet_count.or tweet.retweetCount))
      , ("likeCount", optNumJson (tweet.favorite_count.or tweet.likeCount))
      , ("replyCount", optNumJson (tweet.reply_count.or tweet.replyCount))
      , ("profileImageUrl", optStrJson profileImage) ] }

/-- Matcher for the regex `/From .+, a reminder:/i` after the text has
been lower-cased: after a `"from "` at any position there must be at
least one non-newline character and then `", a reminder:"`. -/
def reminderAfter : List Char → Bool
  | [] => false
  | c :: rest =>
      if c = '\n' then false
      else ", a reminder:".data.isPrefixOf rest || reminderAfter rest

/-- Search every start position for the `From .+, a reminder:` shape. -/
def fromReminderMatch : List Char → Bool
  | [] => false
  | c :: rest =>
      (if "from ".data.isPrefixOf (c :: rest) then
        reminderAfter ((c :: rest).drop 5)
      else false) || fromReminderMatch rest

/-- The denylist of known placeholder/sample-text patterns, matched
case-insensitively against the tweet text. -/
def invalidPatternMatch (text : String) : Bool :=
  let lower := strLower text
  strContains lower "kaitoeasyapi" ||
  strContains lower "our api pricing is based on" ||
  fromReminderMatch lower.data ||
  strContains lower "mock_tweet" ||
  strContains lower "this is a sample" ||
  strContains lower "test tweet" ||
  false

/-- Model of `isValidTweetData`: the denylist rejects, and the body
text (`bodyText || description || ''`) must be at least 5 characters. -/
def isValidTweetData (result : ExtractedContent) : Bool :=
  let text := strOr result.bodyText (strOr result.description "")
  if invalidPatternMatch text then false else text.length ≥ 5

/-- The outcome of one Apify actor run: the awaited `call`/`listItems`
threw (caught and logged inside `fetchFromApify`), or a dataset item
list came back. -/
inductive ActorOutcome where
  | callError (msg : String)
  | items (l : List ApifyTweetResult)

/-- Model of the actor loop inside `fetchFromApify`: the first actor
whose first item normalizes to data passing `isValidTweetData` wins;
every other outcome (call error, empty dataset, invalid data) moves on
to the next actor; exhaustion returns `none`.  Every awaited call of
the source sits inside the per-actor `try`, so this function never
throws. -/
def fetchFromApify (d : DateOracle) : List ActorOutcome → Option ExtractedContent
  | [] => none
  | .callError _ :: rest => fetchFromApify d rest
  | .items [] :: rest => fetchFromApify d rest
  | .items (tweet :: _) :: rest =>
      let result := parseApifyTweet d tweet
      if isValidTweetData result then some result else fetchFromApify d rest

/-- The environment of one `TwitterScraper.scrape` run: outcomes of the
mirror-API fetches, whether an Apify client is configured, and the
per-actor Apify outcomes (three actors in the source). -/
structure TwitterEnv where
  fx : FetchOutcome FxTwitterResponse
  vx : VxOutcome
  apifyConfigured : Bool
  apify : List ActorOutcome

/-- Model of `TwitterScraper.scrape`: the fallback chain.  `urlMatch`
is the platform regex match of
`/(?:twitter|x)\.com\/(\w+)\/status\/(\d+)/i` (username, statusId).
Each failing mirror fetch records one line in `errors`; `fetchFromApify`
only returns (its catch-all is per-actor), so its failure records no
line and the chain falls to the aggregated error. -/
def scrape (d : DateOracle) (urlMatch : Option (String × String))
    (env : TwitterEnv) : Except String ExtractedContent :=
  match urlMatch with
  | none => .error "Invalid Twitter/X URL format"
  | some _ =>
      match fetchFromFxTwitter d env.fx with
      | .ok r => .ok r
      | .error e1 =>
          match fetchFromVxTwitter d env.vx with
          | .ok r => .ok r
          | .error e2 =>
              let errors := ["FxTwitter failed: " ++ e1, "VxTwitter failed: " ++ e2]
              if env.apifyConfigured then
                match fetchFromApify d env.apify with
                | some r => .ok r
                | none =>
                    .error ("No tweet data returned. Errors: " ++ joinSep "; " errors)
              else
                .error ("No tweet data returned. Errors: " ++ joinSep "; " errors)

end TwitterScraper

/-! ## YouTube scraper (packages/scrapers/src/youtube.ts) -/

/-- The pieces of a platform-parsed URL the YouTube scraper reads. -/
structure YtUrl where
  hostname : String
  pathname : String
  searchParams : List (String × String) := []

/-- The (cast, unvalidated) oEmbed payload. -/
structure YouTubeOEmbedResponse where
  title : Option String := none
  author_name : Option String := none
  author_url : Option String := none
  thumbnail_url : Option String := none
  thumbnail_width : Option Nat := none
  thumbnail_height : Option Nat := none

/-- Encode the oEmbed payload into the free-form platform metadata. -/
def oembedJson : Option YouTubeOEmbedResponse → Json
  | none => .null
  | some o => .obj
      [ ("title", optStrJson o.title)
      , ("author_name", optStrJson o.author_name)
      , ("author_url", optStrJson o.author_url)
      , ("thumbnail_url", optStrJson o.thumbnail_url)
      , ("thumbnail_width", optNumJson (o.thumbnail_width.map Int.ofNat))
      , ("thumbnail_height", optNumJson (o.thumbnail_height.map Int.ofNat)) ]

namespace YouTubeScraper

/-- Model of `getEmbedUrl` on the platform-parsed URL (`none` when the
URL constructor threw): youtu.be paths, then a `v` query parameter,
then `/shorts/<id>` paths. -/
def getEmbedUrl (u : Option YtUrl) : Option String :=
  match u with
  | none => none
  | some parsed =>
      if strContains parsed.hostname "youtu.be" then
        let id := removeFirstSlash parsed.pathname
        if id ≠ "" then some ("https://www.youtube.com/embed/" ++ id) else none
      else
        let v := (parsed.searchParams.find? (fun kv => kv.1 = "v")).map (·.2)
        match v with
        | some id =>
            if id ≠ "" then some ("https://www.youtube.com/embed/" ++ id)
            else shortsEmbed parsed
        | none => shortsEmbed parsed
where
  /-- The `/shorts/<id>` branch (`split('/')[2]`). -/
  shortsEmbed (parsed : YtUrl) : Option String :=
    if strStarts parsed.pathname "/shorts/" then
      match (splitSlash parsed.pathname)[2]? with
      | some s => if s ≠ "" then some ("https://www.youtube.com/embed/" ++ s) else none
      | none => none
    else none

/-- Model of `YouTubeScraper.scrape`.  `oembed` is the outcome of
`fetchOEmbed` (which catches every failure into `undefined`): the
scraper performs only this one oEmbed lookup plus the pure embed-URL
synthesis, and always returns. -/
def scrape (u : Option YtUrl) (oembed : Option YouTubeOEmbedResponse) :
    ExtractedContent :=
  let embedUrl := getEmbedUrl u
  let images : List MediaItem :=
    match oembed with
    | some o =>
        match o.thumbnail_url with
        | some t =>
            if t ≠ "" then
              [{ url := t, width := o.thumbnail_width, height := o.thumbnail_height }]
            else []
        | none => []
    | none => []
  let videos : List VideoItem :=
    match embedUrl with
    | some e => [{ url := e, thumbnail := oembed.bind (·.thumbnail_url) }]
    | none => []
  { title := oembed.bind (·.title)
    description := none
    bodyText := none
    authorName := oembed.bind (·.author_name)
    authorHandle := none
    publishedAt := none
    images := images
    videos := videos
    screenshot := none
    platformData :=
      [ ("oembed", oembedJson oembed)
      , ("embedUrl", optStrJson embedUrl) ] }

end YouTubeScraper

/-- Open-Graph metadata of a scraped HTML page, as §4.2 of the spec
describes it for YouTube. -/
structure OgMeta where
  title : Option String := none
  description : Option String := none
  image : Option String := none
  imageWidth : Option Nat := none
  imageHeight : Option Nat := none
  author : Option String := none

/-- Modelled from the spec: the YouTube scrape claim C5 describes — a
best-effort combination of the oEmbed lookup AND direct HTML
Open-Graph/meta scraping, either sub-call degrading independently.
The repository source under the cited lines performs no Open-Graph
scraping, so this definition exists only to compare the claim against
`YouTubeScraper.scrape`. -/
def specYouTubeScrape (u : Option YtUrl) (oembed : Option YouTubeOEmbedResponse)
    (og : OgMeta) : ExtractedContent :=
  let embedUrl := YouTubeScraper.getEmbedUrl u
  let thumbnailUrl := strOrOpt og.image (oembed.bind (·.thumbnail_url))
  let images : List MediaItem :=
    match thumbnailUrl with
    | some t =>
        if t ≠ "" then
          [{ url := t
             width := (og.imageWidth.or (oembed.bind (·.thumbnail_width)))
             height := (og.imageHeight.or (oembed.bind (·.thumbnail_height))) }]
        else []
    | none => []
  let videos : List VideoItem :=
    match embedUrl with
    | some e => [{ url := e, thumbnail := thumbnailUrl }]
    | none => []
  { title := strOrOpt og.title (oembed.bind (·.title))
    description := og.description
    bodyText := none
    authorName := strOrOpt og.author (oembed.bind (·.author_name))
    authorHandle := none
    publishedAt := none
    images := images
    videos := videos
    screenshot := none
    platformData :=
      [ ("oembed", oembedJson oembed)
      , ("embedUrl", optStrJson embedUrl) ] }

/-! ## Media materialization and the capture pipeline
(pipeline worker: processCapture / processMedia / saveToDatabase) -/

/-- One materialized media asset (`ProcessedMedia`). -/
structure ProcessedMedia where
  originalUrl : String
  gcsPath : Option String := none
  publicUrl : Option String := none
  width : Option Nat := none
  height : Option Nat := none
  alt : Option String := none
  thumbnail : Option String := none
  duration : Option Int := none
deriving DecidableEq

/-- The storage bucket (default of `GCS_BUCKET_NAME`). -/
def bucketName : String := "content-capture-media"

/-- The storage path for image `i` of a capture. -/
def imageGcsPath (captureId : String) (i : Nat) : String :=
  "captures/" ++ captureId ++ "/images/" ++ toString i ++ ".jpg"

/-- The stable public URL `downloadAndUpload` returns for a path. -/
def gcsPublicUrl (path : String) : String :=
  "https://storage.googleapis.com/" ++ bucketName ++ "/" ++ path

/-- The image loop of `processMedia`, carrying the source loop index
`i` (which also numbers skipped entries).  `up i` is the outcome of
`downloadAndUpload` for image `i`: success yields the storage path and
public URL, failure falls back to the original URL only; either way
one asset is pushed. -/
def processImagesFrom (captureId : String) (up : Nat → Bool) :
    Nat → List MediaItem → List ProcessedMedia
  | _, [] => []
  | i, img :: rest =>
      if img.url = "" then processImagesFrom captureId up (i + 1) rest
      else
        (if up i then
          { originalUrl := img.url
            gcsPath := some (imageGcsPath captureId i)
            publicUrl := some (gcsPublicUrl (imageGcsPath captureId i))
            width := img.width, height := img.height, alt := img.alt }
        else
          { originalUrl := img.url
            width := img.width, height := img.height, alt := img.alt }) ::
        processImagesFrom captureId up (i + 1) rest

/-- The video loop of `processMedia`: metadata only, bytes never
downloaded. -/
def processVideos (videos : List VideoItem) : List ProcessedMedia :=
  videos.filterMap (fun v =>
    if v.url = "" then none
    else some { originalUrl := v.url, thumbnail := v.thumbnail, duration := v.duration })

/-- The screenshot branch of `processMedia`: inline `data:` payloads
are decoded and uploaded (the comma-less form makes the decode throw);
`http` URLs are re-uploaded, keeping the original URL on failure;
anything else is dropped.  `ssUp` is the upload outcome. -/
def processScreenshot (captureId : String) (ssUp : Bool) (shot : Option String) :
    Option String :=
  match shot with
  | none => none
  | some s =>
      if s = "" then none
      else if strStarts s "data:" then
        if ssUp ∧ strContains s "," then
          some (gcsPublicUrl ("captures/" ++ captureId ++ "/screenshot.jpg"))
        else none
      else if strStarts s "http" then
        if ssUp then some (gcsPublicUrl ("captures/" ++ captureId ++ "/screenshot.jpg"))
        else some s
      else none

/-- The output bundle of `processMedia`. -/
structure ProcessedMediaBundle where
  images : List ProcessedMedia
  videos : List ProcessedMedia
  screenshot : Option String

/-- Model of `processMedia`: every per-asset failure is caught locally,
so this stage never throws. -/
def processMedia (captureId : String) (up : Nat → Bool) (ssUp : Bool)
    (content : ExtractedContent) : ProcessedMediaBundle :=
  { images := processImagesFrom captureId up 0 content.images
    videos := processVideos content.videos
    screenshot := processScreenshot captureId ssUp content.screenshot }

/-- The row `saveToDatabase` writes (pipeline-relevant fields). -/
structure SavedRecord where
  title : Option String
  description : Option String
  body_text : Option String
  author_name : Option String
  author_handle : Option String
  published_at : Option String
  images : List ProcessedMedia
  videos : List ProcessedMedia
  summary : String
  topics : List String
  disciplines : List String
  use_cases : List String
  content_type : ContentType
  platform_data : List (String × Json)
  status : CaptureStatus
  processed_at : String
  updated_at : String

/-- The record assembled by `saveToDatabase` (the update payload).
`now` stands in for `new Date().toISOString()`. -/
def mkSavedRecord (content : ExtractedContent) (analysis : AnalysisResult)
    (media : ProcessedMediaBundle) (notes : Option String)
    (slackUserName : Option String) (now : String) : SavedRecord :=
  { title := content.title
    description := content.description
    body_text := content.bodyText
    author_name := content.authorName
    author_handle := content.authorHandle
    published_at := content.publishedAt
    images := media.images
    videos := media.videos
    summary := analysis.summary
    topics := analysis.topics
    disciplines := [analysis.discipline]
    use_cases := analysis.useCases
    content_type := analysis.contentType
    platform_data := content.platformData ++
      (if strTruthy notes then [("user_notes", optStrJson notes)] else []) ++
      (if strTruthy media.screenshot then [("screenshot", optStrJson media.screenshot)] else []) ++
      (if strTruthy slackUserName then [("submitted_by", optStrJson slackUserName)] else [])
    status := .complete
    processed_at := now
    updated_at := now }

/-- Environment of one `processCapture` invocation: the outcomes of
every external effect it performs. -/
structure PipelineEnv where
  scrape : Except String ExtractedContent
  imageUpload : Nat → Bool
  screenshotUpload : Bool
  analyzeCall : Except String (Option Json)
  dbError : Option String

/-- The observable outcome of one `processCapture` run: the status
updates written (in order, from `processing` on), the final status with
its error message, and the enriched row when one was written. -/
structure PipelineOutcome where
  trace : List (CaptureStatus × Option String)
  finalStatus : CaptureStatus
  errorMessage : Option String
  saved : Option SavedRecord

/-- Model of `processCapture`: status to `processing`, scrape,
materialize, categorize, persist.  A scrape throw is caught by the
top-level catch and recorded as `failed` with the thrown message; the
media and categorization stages absorb their failures; a persistence
error makes `saveToDatabase` throw `Database save failed: …`, which the
same top-level catch also records as `failed`. -/
def processCapture (env : PipelineEnv) (captureId : String)
    (sourceType : SourceType) (notes slackUserName : Option String)
    (now : String) : PipelineOutcome :=
  match env.scrape with
  | .error e =>
      { trace := [(.processing, none), (.failed, some e)]
        finalStatus := .failed, errorMessage := some e, saved := none }
  | .ok content =>
      let media := processMedia captureId env.imageUpload env.screenshotUpload content
      let analysis := ContentAnalyzer.analyze env.analyzeCall content sourceType
      match env.dbError with
      | some msg =>
          let m := "Database save failed: " ++ msg
          { trace := [(.processing, none), (.failed, some m)]
            finalStatus := .failed, errorMessage := some m, saved := none }
      | none =>
          { trace := [(.processing, none), (.complete, none)]
            finalStatus := .complete, errorMessage := none
            saved := some (mkSavedRecord content analysis media notes slackUserName now) }

/-! ## Search relevance scoring (apps/web/src/app/api/search/route.ts) -/

/-- The extracted search intent. -/
structure SearchIntent where
  keywords : List String := []
  topics : List String := []
  useCases : List String := []
  sourceTypes : List String := []
  contentTypes : List String := []
  searchStrategy : String := "broad"

/-- One candidate row of the store, with the fields the scoring loop
reads (a `topics` of `none` models a null column). -/
structure SearchItem where
  id : String
  title : Option String := none
  description : Option String := none
  summary : Option String := none
  body_text : Option String := none
  topics : Option (List String) := none

/-- Case-insensitive `includes` against a nullable field: a missing
field never matches (`item.title?.toLowerCase().includes(k)`). -/
def optContainsCI (field : Option String) (kLower : String) : Bool :=
  match field with
  | some s => strContains (strLower s) kLower
  | none => false

/-- Model of the scoring block of the search route: base score by
position, then per-keyword boosts for title/description/summary, then
the topic-alignment bonus. -/
def scoreItem (intent : SearchIntent) (item : SearchItem) (index : Nat) : Int :=
  let base : Int := 100 - (index : Int)
  let boosted := intent.keywords.foldl (fun sc k =>
    let kl := strLower k
    let sc := if optContainsCI item.title kl then sc + 25 else sc
    let sc := if optContainsCI item.description kl then sc + 15 else sc
    if optContainsCI item.summary kl then sc + 10 else sc) base
  if intent.topics.length > 0 ∧ item.topics ≠ none then
    boosted + 5 * ((intent.topics.filter (fun t =>
      (item.topics.getD []).any (fun it => strLower it = strLower t))).length : Int)
  else boosted

/-- A candidate with its relevance score attached (`_score`). -/
structure ScoredItem where
  item : SearchItem
  score : Int

/-- `resultMap.set` semantics: overwrite in place when the id is
present, else append (JS `Map` keeps the original insertion slot). -/
def mapSet (m : List ScoredItem) (v : ScoredItem) : List ScoredItem :=
  if m.any (fun e => e.item.id = v.item.id) then
    m.map (fun e => if e.item.id = v.item.id then v else e)
  else m ++ [v]

/-- The scoring `forEach` over the store results in native order. -/
def buildScored (intent : SearchIntent) (textResults : List SearchItem) :
    List ScoredItem :=
  go 0 [] textResults
where
  go : Nat → List ScoredItem → List SearchItem → List ScoredItem
    | _, acc, [] => acc
    | i, acc, x :: xs =>
        go (i + 1) (mapSet acc { item := x, score := scoreItem intent x i }) xs

/-- Stable insertion for descending sort by score: an element goes
before the first strictly-lower-or-equal score it passes, keeping
earlier equal-scored elements first (the stable JS
`sort((a, b) => b._score - a._score)`). -/
def insertDesc (x : ScoredItem) : List ScoredItem → List ScoredItem
  | [] => [x]
  | y :: ys => if y.score > x.score then y :: insertDesc x ys else x :: y :: ys

/-- Stable descending sort by score. -/
def sortByScoreDesc : List ScoredItem → List ScoredItem
  | [] => []
  | x :: xs => insertDesc x (sortByScoreDesc xs)

/-- The ranked result list of the POST search route: score, sort
descending, strip the score, paginate with `slice(0, limit)`. -/
def rankResults (intent : SearchIntent) (textResults : List SearchItem)
    (limit : Nat) : List SearchItem :=
  (((sortByScoreDesc (buildScored intent textResults)).map (·.item)).take limit)

/-! ## Claim C2: source classification -/

/-- C2 counterexample input: a hostname in which both the `x.com` and
the `instagram.com` pattern occur; the longest match is
`instagram.com`, but the code answers `twitter` because it tests the
patterns in a fixed order. -/
def c2Url : String := "https://x.com.instagram.com/p/1"

/-- C2 (counterexample).  On `https://x.com.instagram.com/p/1` the
code classifies `twitter` (first pattern tested), while the
longest-hostname-substring rule the claim states yields `instagram`:
classification is not longest-match. -/
theorem c2_counterexample :
    detectSourceType c2Url = .twitter ∧
    specLongestMatchClassify "x.com.instagram.com" = .instagram ∧
    SourceType.twitter ≠ SourceType.instagram := by
  refine ⟨rfl, rfl, ?_⟩
  decide

/-- C2 (amended): classification tests the lower-cased FULL URL string
(not only the hostname) against the platform substrings in a fixed
priority order — twitter/x, instagram, youtube, linkedin, pinterest —
returning the first match and `web` when none matches; it is a pure
function of the URL (hence deterministic and stable under
re-invocation), and the two example URLs classify as claimed. -/
theorem c2_first_match_classification :
    (∀ url, detectSourceType url = firstMatchClassify url) ∧
    detectSourceType "https://x.com/user/status/123" = .twitter ∧
    detectSourceType "https://example.com/article" = .web := by
  refine ⟨fun url => ?_, rfl, rfl⟩
  simp only [detectSourceType, firstMatchClassify, platformPatterns,
    firstMatchClassify.go, List.any_cons, List.any_nil, Bool.or_false]

/-! ## Claim C10: URL normalization -/

/-- C10 counterexample input: a fragment ending in a slash.  The
serialized URL then ends in `'/'` while the path does not, so the
trailing-slash strip removes the final character OF THE FRAGMENT. -/
def c10Url : ParsedUrl :=
  { protocol := "https:", hostname := "example.com", pathname := "/a"
    fragment := some "x/" }

/-- C10 (counterexample).  On `https://example.com/a#x/` the code
returns `https://example.com/a#x` — the fragment is truncated — while
the claimed normalization (tracking-parameter removal, hostname
lower-casing, at most one trailing slash removed from a non-root PATH,
everything else preserved) yields `https://example.com/a#x/`. -/
theorem c10_counterexample :
    validateUrl c10Url = some "https://example.com/a#x" ∧
    specNormalizeUrl c10Url = "https://example.com/a#x/" ∧
    ("https://example.com/a#x" : String) ≠ "https://example.com/a#x/" := by
  refine ⟨rfl, rfl, ?_⟩
  decide

/-- C10 (amended): for every parsed http/https URL, the normalized URL
is the serialization of the input with the enumerated tracking
parameters removed and the hostname lower-cased, minus one trailing
`'/'` character of the full serialized string when it ends with one
and the path is not root (that character may belong to the query or
fragment rather than the path); consequently two URLs differing only
by a tracking parameter inserted anywhere in the query normalize
identically. -/
theorem c10_normalization (parsed : ParsedUrl)
    (h : parsed.protocol = "http:" ∨ parsed.protocol = "https:") :
    validateUrl parsed = some (specAmendedNormalizeUrl parsed) ∧
    (∀ q1 q2 p v, p ∈ TRACKING_PARAMS →
      validateUrl { parsed with query := q1 ++ [(p, v)] ++ q2 } =
      validateUrl { parsed with query := q1 ++ q2 }) := by
  constructor
  · simp only [validateUrl, specAmendedNormalizeUrl, h]
    rcases h with h | h <;> simp [h]
  · intro q1 q2 p v hp
    simp only [validateUrl]
    rcases h with h | h <;>
      simp [h, List.filter_append, hp]

/-- C10 witness: the amended normalization evaluated at a concrete
URL, and tracking-parameter invariance at a concrete pair of URLs. -/
theorem c10_normalization_witness :
    validateUrl c10Url = some (specAmendedNormalizeUrl c10Url) ∧
    validateUrl { c10Url with query := [("a", "1")] ++ [("utm_source", "x")] ++ [] } =
      validateUrl { c10Url with query := [("a", "1")] ++ [] } := by
  have h := c10_normalization c10Url (Or.inr rfl)
  exact ⟨h.1, h.2 [("a", "1")] [] "utm_source" "x" (by decide)⟩

/-! ## Claim C4: categorization response clamping -/

/-- `slice(0, n)` bounds the length. -/
theorem strTake_length_le (s : String) (n : Nat) : (strTake s n).length ≤ n := by
  show (s.data.take n).length ≤ n
  simp [List.length_take]

/-- `normalizeArray` truncates to at most `n` entries. -/
theorem normalizeArray_length_le (x : Option Json) (n : Nat) :
    (ContentAnalyzer.normalizeArray x n).length ≤ n := by
  unfold ContentAnalyzer.normalizeArray
  cases x with
  | none => simp
  | some j => cases j <;> simp [List.length_take]

/-- C4 counterexample input: a syntactically valid JSON object with a
summary but no topics and no use cases. -/
def c4Json : Json := .obj [("summary", .str "x")]

/-- The result the code produces for `c4Json`. -/
def c4Result : AnalysisResult :=
  { summary := "x", topics := [], discipline := "General", useCases := []
    contentType := .post }

/-- C4 (counterexample).  On the parsed JSON `{"summary": "x"}` the
code returns a result with ZERO topics and ZERO use cases: the claimed
lower bounds (topics ≥ 1, useCases ≥ 1) are not enforced by
`parseResponse`. -/
theorem c4_counterexample :
    ContentAnalyzer.parseResponseJson (some c4Json) = .ok c4Result ∧
    c4Result.topics.length = 0 ∧ c4Result.useCases.length = 0 :=
  ⟨rfl, rfl, rfl⟩

/-- The behavior of `normalizeContentType` by cases on the accessed
property: missing defaults to `post`; a string is lower-cased and
validated against the enum, defaulting to `post` when invalid; any
non-string value defaults to `post`. -/
theorem contentType_cases (x : Option Json) :
    (x = none → ContentAnalyzer.normalizeContentType x = .post) ∧
    (∀ s, x = some (.str s) → ContentAnalyzer.normalizeContentType x =
      (if strLower s ∈ ContentAnalyzer.validTypes then
        ContentAnalyzer.decodeContentType (strLower s) else .post)) ∧
    (∀ v, x = some v → (∀ s, v ≠ Json.str s) →
      ContentAnalyzer.normalizeContentType x = .post) := by
  refine ⟨fun h => by rw [h]; rfl, fun s h => by rw [h]; rfl, fun v h hns => ?_⟩
  rw [h]
  cases v with
  | str s => exact absurd rfl (hns s)
  | null => rfl
  | bool b => rfl
  | num n => rfl
  | arr l => rfl
  | obj f => rfl

/-- C4 (amended): every successfully parsed categorization response is
clamped from above — summary at most 500 characters, at most 5 topics,
at most 3 use cases — but no minimum counts are imposed: topics and
useCases may be empty.  The contentType is validated case-insensitively
against the enum {post, article, thread, image, video}: a missing
property, a non-string value, and a string outside the (lower-cased)
enum all default to `post`, while an enum member is accepted in its
lower-cased form. -/
theorem c4_parse_clamps (j : Json) (r : AnalysisResult)
    (h : ContentAnalyzer.parseResponseJson (some j) = .ok r) :
    r.summary.length ≤ 500 ∧ r.topics.length ≤ 5 ∧ r.useCases.length ≤ 3 ∧
    (jGet j "contentType" = none → r.contentType = .post) ∧
    (∀ s, jGet j "contentType" = some (.str s) →
      r.contentType = (if strLower s ∈ ContentAnalyzer.validTypes then
        ContentAnalyzer.decodeContentType (strLower s) else .post)) ∧
    (∀ v, jGet j "contentType" = some v → (∀ s, v ≠ Json.str s) →
      r.contentType = .post) := by
  cases j
  case null => simp [ContentAnalyzer.parseResponseJson] at h
  all_goals
    cases h
    dsimp only
    exact ⟨strTake_length_le _ _, normalizeArray_length_le _ _,
      normalizeArray_length_le _ _, (contentType_cases _).1,
      (contentType_cases _).2.1, (contentType_cases _).2.2⟩

/-- C4 witness input: an over-long topics array plus a mixed-case valid
contentType. -/
def c4WitnessJson : Json :=
  .obj [("summary", .str "s"), ("topics", .arr [.str "a", .str "b",
    .str "c", .str "d", .str "e", .str "f", .str "g"]),
    ("contentType", .str "Article")]

/-- C4 witness input: an invalid contentType string. -/
def c4WitnessJson2 : Json := .obj [("contentType", .str "banana")]

/-- C4 witness: the clamps evaluated at a concrete over-long response
whose mixed-case `"Article"` is accepted as `article`, and a concrete
invalid `"banana"` defaulting to `post`. -/
theorem c4_parse_clamps_witness :
    (∃ r, ContentAnalyzer.parseResponseJson (some c4WitnessJson) = .ok r ∧
      r.summary.length ≤ 500 ∧ r.topics.length ≤ 5 ∧ r.useCases.length ≤ 3 ∧
      r.contentType = .article) ∧
    (∃ r, ContentAnalyzer.parseResponseJson (some c4WitnessJson2) = .ok r ∧
      r.contentType = .post) := by
  constructor
  · refine ⟨_, rfl, ?_⟩
    have h := c4_parse_clamps c4WitnessJson _ rfl
    refine ⟨h.1, h.2.1, h.2.2.1, ?_⟩
    have hc := h.2.2.2.2.1 "Article" (by rfl)
    rw [hc]
    rfl
  · refine ⟨_, rfl, ?_⟩
    have h := c4_parse_clamps c4WitnessJson2 _ rfl
    have hc := h.2.2.2.2.1 "banana" (by rfl)
    rw [hc]
    rfl

/-! ## Claim C6: the deterministic categorization fallback -/

/-- C6 (confirmed): a generation-call failure and a parse failure both
route to `getFallbackAnalysis`, which is a total function; when the
combined title+description+body text contains "machine learning" the
fallback topics include "AI"; the summary is the description when
truthy, else the title when truthy, else the fixed placeholder; and
the result always has 1 to 5 topics and 1 to 3 use cases. -/
theorem c6_fallback_analysis (content : ExtractedContent) (st : SourceType)
    (e : String) :
    ContentAnalyzer.analyze (.error e) content st =
      ContentAnalyzer.getFallbackAnalysis content st ∧
    ContentAnalyzer.analyze (.ok none) content st =
      ContentAnalyzer.getFallbackAnalysis content st ∧
    (strContains (strLower (strOr content.title "" ++ " " ++
        strOr content.description "" ++ " " ++ strOr content.bodyText ""))
        "machine learning" = true →
      "AI" ∈ (ContentAnalyzer.getFallbackAnalysis content st).topics) ∧
    (ContentAnalyzer.getFallbackAnalysis content st).summary =
      strOr content.description (strOr content.title ContentAnalyzer.placeholderSummary) ∧
    1 ≤ (ContentAnalyzer.getFallbackAnalysis content st).topics.length ∧
    (ContentAnalyzer.getFallbackAnalysis content st).topics.length ≤ 5 ∧
    1 ≤ (ContentAnalyzer.getFallbackAnalysis content st).useCases.length ∧
    (ContentAnalyzer.getFallbackAnalysis content st).useCases.length ≤ 3 := by
  refine ⟨rfl, rfl, ?_, rfl, ?_, ?_, by simp [ContentAnalyzer.getFallbackAnalysis],
    by simp [ContentAnalyzer.getFallbackAnalysis]⟩
  · intro hml
    simp [ContentAnalyzer.getFallbackAnalysis, hml]
  · dsimp only [ContentAnalyzer.getFallbackAnalysis]
    have hgen : ∀ (T : List String), 1 ≤ (if T = [] then ["General"] else T).length := by
      intro T
      split
      · simp
      · rename_i hne
        exact List.length_pos.mpr hne
    exact hgen _
  · dsimp only [ContentAnalyzer.getFallbackAnalysis]
    have hgen : ∀ (T : List String), T.length ≤ 4 →
        (if T = [] then ["General"] else T).length ≤ 5 := by
      intro T hT
      split
      · simp
      · omega
    refine hgen _ ?_
    split_ifs <;> simp

/-- C6 witness: the fallback on a concrete capture whose body text
contains "machine learning". -/
theorem c6_fallback_analysis_witness :
    "AI" ∈ (ContentAnalyzer.getFallbackAnalysis
      { bodyText := some "notes on machine learning systems" } SourceType.web).topics ∧
    (ContentAnalyzer.getFallbackAnalysis
      { bodyText := some "notes on machine learning systems" } SourceType.web).summary =
      ContentAnalyzer.placeholderSummary := by
  have h := c6_fallback_analysis
    { bodyText := some "notes on machine learning systems" } SourceType.web "err"
  exact ⟨h.2.2.1 (by rfl), h.2.2.2.1⟩

/-! ## Claim C1: failure transitions of the capture state machine -/

/-- C1 counterexample environment: the scrape chain succeeds, media and
categorization run, but the final persistence write fails. -/
def c1Env : PipelineEnv :=
  { scrape := .ok {}
    imageUpload := fun _ => true
    screenshotUpload := true
    analyzeCall := .error "api down"
    dbError := some "boom" }

/-- C1 (counterexample).  With a successful scrape but a failing final
persistence write, the capture still transitions `processing → failed`
(with a `Database save failed:` message): the transition to `failed`
is NOT exclusive to scrape-chain exhaustion. -/
theorem c1_counterexample :
    c1Env.scrape = .ok {} ∧
    (processCapture c1Env "cap1" .web none none "T").finalStatus = .failed ∧
    (processCapture c1Env "cap1" .web none none "T").errorMessage =
      some "Database save failed: boom" :=
  ⟨rfl, rfl, rfl⟩

/-- C1 (amended): a processed capture transitions `processing → failed`
exactly when the scrape chain throws or the final persistence write
fails; a scrape throw stores its (aggregated) message, a persistence
failure stores the message prefixed `Database save failed: `; and when
scrape and persistence both succeed the capture completes regardless
of media-materialization or categorization outcomes — those stages
never cause `failed`. -/
theorem c1_failure_transitions (env : PipelineEnv) (cid : String)
    (st : SourceType) (notes un : Option String) (now : String) :
    ((processCapture env cid st notes un now).finalStatus = .failed ↔
      (∃ e, env.scrape = .error e) ∨ env.dbError ≠ none) ∧
    (∀ e, env.scrape = .error e →
      (processCapture env cid st notes un now).errorMessage = some e) ∧
    (∀ c m, env.scrape = .ok c → env.dbError = some m →
      (processCapture env cid st notes un now).errorMessage =
        some ("Database save failed: " ++ m)) ∧
    (∀ c, env.scrape = .ok c → env.dbError = none →
      (processCapture env cid st notes un now).finalStatus = .complete) := by
  obtain ⟨sc, iu, su, ac, dbe⟩ := env
  cases sc <;> cases dbe <;> simp [processCapture]

/-- C1 witness: the amended characterization applied to a concrete
environment whose scrape chain is exhausted. -/
theorem c1_failure_transitions_witness :
    (processCapture
      { scrape := .error "No tweet data returned. Errors: x"
        imageUpload := fun _ => true
        screenshotUpload := true
        analyzeCall := .error "e"
        dbError := none } "c" .twitter none none "T").finalStatus = .failed :=
  (c1_failure_transitions _ "c" .twitter none none "T").1.mpr (Or.inl ⟨_, rfl⟩)

/-! ## Claim C7: media materialization never drops an asset -/

/-- One asset is pushed per image with a URL (pushes in order). -/
theorem processImagesFrom_length (cid : String) (up : Nat → Bool)
    (images : List MediaItem) : ∀ i,
    (processImagesFrom cid up i images).length =
      (images.filter (fun im => im.url ≠ "")).length := by
  induction images with
  | nil => intro i; rfl
  | cons img rest ih =>
      intro i
      by_cases h : img.url = "" <;>
        simp [processImagesFrom, h, List.filter_cons, ih]

/-- The original URLs of the output are exactly the URLs of the images
that have one, in order. -/
theorem processImagesFrom_originalUrls (cid : String) (up : Nat → Bool)
    (images : List MediaItem) : ∀ i,
    (processImagesFrom cid up i images).map (·.originalUrl) =
      (images.filter (fun im => im.url ≠ "")).map (·.url) := by
  induction images with
  | nil => intro i; rfl
  | cons img rest ih =>
      intro i
      by_cases h : img.url = ""
      · simp [processImagesFrom, h, List.filter_cons, ih]
      · by_cases hu : up i <;>
          simp [processImagesFrom, h, hu, List.filter_cons, ih]

/-- Every output asset either records a storage path together with its
public URL, or records neither (the original-URL-only fallback). -/
theorem processImagesFrom_mem_shape (cid : String) (up : Nat → Bool)
    (images : List MediaItem) : ∀ i a, a ∈ processImagesFrom cid up i images →
    (∃ j, a.gcsPath = some (imageGcsPath cid j) ∧
      a.publicUrl = some (gcsPublicUrl (imageGcsPath cid j))) ∨
    (a.gcsPath = none ∧ a.publicUrl = none) := by
  induction images with
  | nil => intro i a ha; simp [processImagesFrom] at ha
  | cons img rest ih =>
      intro i a ha
      by_cases h : img.url = ""
      · rw [processImagesFrom, if_pos h] at ha
        exact ih (i + 1) a ha
      · rw [processImagesFrom, if_neg h] at ha
        rcases List.mem_cons.mp ha with hhead | htail
        · by_cases hu : up i
          · left
            refine ⟨i, ?_, ?_⟩ <;> simp [hhead, hu]
          · right
            constructor <;> simp [hhead, hu]
        · exact ih (i + 1) a htail

/-- A successfully uploaded image yields an asset whose storage path is
keyed by the capture id and the image index. -/
theorem processImagesFrom_success (cid : String) (up : Nat → Bool) :
    ∀ (images : List MediaItem) (i j : Nat) (img : MediaItem),
    images[j]? = some img → img.url ≠ "" → up (i + j) = true →
    ∃ a ∈ processImagesFrom cid up i images, a.originalUrl = img.url ∧
      a.gcsPath = some (imageGcsPath cid (i + j)) ∧
      a.publicUrl = some (gcsPublicUrl (imageGcsPath cid (i + j))) := by
  intro images
  induction images with
  | nil => intro i j img hj; simp at hj
  | cons hd rest ih =>
      intro i j img hj hurl hup
      cases j with
      | zero =>
          simp only [List.getElem?_cons_zero, Option.some_inj] at hj
          subst hj
          rw [processImagesFrom, if_neg hurl]
          rw [Nat.add_zero] at hup
          refine ⟨_, List.mem_cons_self _ _, ?_⟩
          simp [hup]
      | succ j' =>
          simp only [List.getElem?_cons_succ] at hj
          have hup' : up ((i + 1) + j') = true := by
            rw [show (i + 1) + j' = i + (j' + 1) by omega]
            exact hup
          obtain ⟨a, ha, hprops⟩ := ih (i + 1) j' img hj hurl hup'
          rw [show (i + 1) + j' = i + (j' + 1) by omega] at hprops
          by_cases h : hd.url = ""
          · rw [processImagesFrom, if_pos h]
            exact ⟨a, ha, hprops⟩
          · rw [processImagesFrom, if_neg h]
            exact ⟨a, List.mem_cons_of_mem _ ha, hprops⟩

/-- C7 (confirmed): media materialization pushes exactly one asset per
extracted image with a (nonempty) URL, in order, each carrying that
URL as `originalUrl`; a successful download records the storage path
keyed by capture id and image index together with the materialized
public URL, a failed one records neither and keeps only the original
URL; and a capture whose scrape and persistence succeed completes
regardless of upload failures. -/
theorem c7_media_materialization (captureId : String) (up : Nat → Bool)
    (ssUp : Bool) (content : ExtractedContent) :
    ((processMedia captureId up ssUp content).images.length =
      (content.images.filter (fun im => im.url ≠ "")).length) ∧
    ((processMedia captureId up ssUp content).images.map (·.originalUrl) =
      (content.images.filter (fun im => im.url ≠ "")).map (·.url)) ∧
    (∀ a ∈ (processMedia captureId up ssUp content).images,
      (∃ j, a.gcsPath = some (imageGcsPath captureId j) ∧
        a.publicUrl = some (gcsPublicUrl (imageGcsPath captureId j))) ∨
      (a.gcsPath = none ∧ a.publicUrl = none)) ∧
    (∀ j img, content.images[j]? = some img → img.url ≠ "" → up j = true →
      ∃ a ∈ (processMedia captureId up ssUp content).images,
        a.originalUrl = img.url ∧
        a.gcsPath = some (imageGcsPath captureId j) ∧
        a.publicUrl = some (gcsPublicUrl (imageGcsPath captureId j))) ∧
    (∀ (env : PipelineEnv) cid st notes un now c, env.scrape = .ok c →
      env.dbError = none →
      (processCapture env cid st notes un now).finalStatus = .complete) := by
  refine ⟨processImagesFrom_length captureId up content.images 0,
    processImagesFrom_originalUrls captureId up content.images 0,
    processImagesFrom_mem_shape captureId up content.images 0,
    fun j img hj hurl hup => ?_, fun env cid st notes un now c hs hd => ?_⟩
  · have h := processImagesFrom_success captureId up content.images 0 j img hj hurl
      (by rw [Nat.zero_add]; exact hup)
    rw [Nat.zero_add] at h
    exact h
  · obtain ⟨sc, iu, su, ac, dbe⟩ := env
    cases hs
    cases hd
    rfl

/-- C7 witness inputs: two images, of which only the first uploads. -/
def c7Content : ExtractedContent :=
  { images := [{ url := "https://a/1.jpg" }, { url := "https://b/2.jpg" }] }

/-- C7 witness: the claim applied to a concrete capture with one
reachable and one unreachable image; the unreachable one is kept, and
the capture completes. -/
theorem c7_media_materialization_witness :
    (∃ a ∈ (processMedia "cap" (fun i => i == 0) true c7Content).images,
      a.originalUrl = "https://a/1.jpg" ∧
      a.gcsPath = some (imageGcsPath "cap" 0) ∧
      a.publicUrl = some (gcsPublicUrl (imageGcsPath "cap" 0))) ∧
    (processMedia "cap" (fun i => i == 0) true c7Content).images.length =
      (c7Content.images.filter (fun im => im.url ≠ "")).length ∧
    (processCapture
      { scrape := .ok c7Content, imageUpload := fun _ => false
        screenshotUpload := false, analyzeCall := .error "e", dbError := none }
      "cap" .web none none "T").finalStatus = .complete := by
  have h := c7_media_materialization "cap" (fun i => i == 0) true c7Content
  exact ⟨h.2.2.2.1 0 { url := "https://a/1.jpg" } rfl (by decide) rfl,
    h.1, h.2.2.2.2 _ "cap" .web none none "T" c7Content rfl rfl⟩

/-! ## Claim C3: exhaustion of the Twitter chain -/

/-- A concrete date oracle for witnesses (date parsing always fails,
timestamps render as an empty string). -/
def d0 : DateOracle := { fromString := fun _ => none, fromMillis := fun _ => "" }

/-- C3 counterexample environment: every strategy fails — both mirror
APIs respond with status 500, the Apify client is configured and every
actor call errors. -/
def c3Env : TwitterScraper.TwitterEnv :=
  { fx := .resp false 500 { code := 404, message := "" }
    vx := .resp false 500 "" (.error "x")
    apifyConfigured := true
    apify := [.callError "a1", .callError "a2", .callError "a3"] }

/-- C3 (counterexample).  When every strategy fails (the heavyweight
Apify strategy included and attempted), the aggregated error carries
one line per MIRROR strategy only: the Apify failure contributes no
line, because `fetchFromApify` absorbs its per-actor errors and
returns null, bypassing the `errors.push` in its caller. -/
theorem c3_counterexample :
    c3Env.apifyConfigured = true ∧
    TwitterScraper.scrape d0 (some ("user", "123")) c3Env =
      .error ("No tweet data returned. Errors: FxTwitter failed: " ++
        "FxTwitter API returned 500; VxTwitter failed: VxTwitter API returned 500") ∧
    strContains ("No tweet data returned. Errors: FxTwitter failed: " ++
      "FxTwitter API returned 500; VxTwitter failed: VxTwitter API returned 500")
      "Apify" = false :=
  ⟨rfl, rfl, rfl⟩

/-- C3 (amended): when every attempted strategy fails, no
`ExtractedContent` is returned — the scraper throws one aggregated
error of the form `No tweet data returned. Errors: FxTwitter failed:
…; VxTwitter failed: …`, with one failure line for each MIRROR-API
strategy; heavyweight scraping-service failures are absorbed into a
null result and contribute no line; and the capture pipeline marks the
capture `failed` with exactly that aggregated message. -/
theorem c3_chain_exhaustion (d : DateOracle) (u t : String)
    (env : TwitterScraper.TwitterEnv) (e1 e2 : String)
    (h1 : TwitterScraper.fetchFromFxTwitter d env.fx = .error e1)
    (h2 : TwitterScraper.fetchFromVxTwitter d env.vx = .error e2)
    (h3 : TwitterScraper.fetchFromApify d env.apify = none) :
    TwitterScraper.scrape d (some (u, t)) env =
      .error ("No tweet data returned. Errors: " ++
        joinSep "; " ["FxTwitter failed: " ++ e1, "VxTwitter failed: " ++ e2]) ∧
    (∀ (iu : Nat → Bool) (su : Bool) (ac : Except String (Option Json))
        (cid : String) (st : SourceType) (notes un : Option String) (now : String),
      (processCapture
        { scrape := TwitterScraper.scrape d (some (u, t)) env
          imageUpload := iu, screenshotUpload := su, analyzeCall := ac
          dbError := none } cid st notes un now).finalStatus = .failed ∧
      (processCapture
        { scrape := TwitterScraper.scrape d (some (u, t)) env
          imageUpload := iu, screenshotUpload := su, analyzeCall := ac
          dbError := none } cid st notes un now).errorMessage =
        some ("No tweet data returned. Errors: " ++
          joinSep "; " ["FxTwitter failed: " ++ e1, "VxTwitter failed: " ++ e2])) := by
  have hs : TwitterScraper.scrape d (some (u, t)) env =
      .error ("No tweet data returned. Errors: " ++
        joinSep "; " ["FxTwitter failed: " ++ e1, "VxTwitter failed: " ++ e2]) := by
    simp only [TwitterScraper.scrape, h1, h2, h3, ite_self]
  refine ⟨hs, fun iu su ac cid st notes un now => ?_⟩
  constructor <;> simp [processCapture, hs]

/-- C3 witness: the amended chain-exhaustion theorem applied to the
concrete all-failing environment. -/
theorem c3_chain_exhaustion_witness :
    TwitterScraper.scrape d0 (some ("user", "123")) c3Env =
      .error ("No tweet data returned. Errors: " ++
        joinSep "; " ["FxTwitter failed: " ++ "FxTwitter API returned 500",
          "VxTwitter failed: " ++ "VxTwitter API returned 500"]) :=
  (c3_chain_exhaustion d0 "user" "123" c3Env
    "FxTwitter API returned 500" "VxTwitter API returned 500" rfl rfl rfl).1

/-! ## Claim C9: heavyweight result validation -/

/-- C9 (confirmed): an Apify record whose normalized body text matches
a denylisted placeholder pattern or is shorter than 5 characters fails
`isValidTweetData`, and the actor loop then proceeds past it (to the
next strategy, or exhausting to `none`). -/
theorem c9_invalid_result_rejected (d : DateOracle) (tweet : ApifyTweetResult)
    (more : List ApifyTweetResult) (rest : List TwitterScraper.ActorOutcome)
    (h : TwitterScraper.invalidPatternMatch
        (strOr (TwitterScraper.parseApifyTweet d tweet).bodyText
          (strOr (TwitterScraper.parseApifyTweet d tweet).description "")) = true ∨
      (strOr (TwitterScraper.parseApifyTweet d tweet).bodyText
        (strOr (TwitterScraper.parseApifyTweet d tweet).description "")).length < 5) :
    TwitterScraper.isValidTweetData (TwitterScraper.parseApifyTweet d tweet) = false ∧
    TwitterScraper.fetchFromApify d (.items (tweet :: more) :: rest) =
      TwitterScraper.fetchFromApify d rest := by
  have hv : TwitterScraper.isValidTweetData (TwitterScraper.parseApifyTweet d tweet)
      = false := by
    rcases h with h | h
    · simp [TwitterScraper.isValidTweetData, h]
    · have hlt : ¬ (5 ≤ (strOr (TwitterScraper.parseApifyTweet d tweet).bodyText
          (strOr (TwitterScraper.parseApifyTweet d tweet).description "")).length) := by
        omega
      simp [TwitterScraper.isValidTweetData, hlt, ite_self]
  exact ⟨hv, by simp [TwitterScraper.fetchFromApify, hv]⟩

/-- C9 witness input: a record carrying a known sample-text marker. -/
def c9Tweet : ApifyTweetResult :=
  { full_text := some "This is a sample tweet for testing" }

/-- C9 witness: the rejection theorem applied to the concrete
placeholder record, with subsequent exhaustion of the chain. -/
theorem c9_invalid_result_rejected_witness :
    TwitterScraper.isValidTweetData (TwitterScraper.parseApifyTweet d0 c9Tweet)
      = false ∧
    TwitterScraper.fetchFromApify d0 [.items [c9Tweet], .callError "x"] =
      TwitterScraper.fetchFromApify d0 [.callError "x"] ∧
    TwitterScraper.fetchFromApify d0 [.items [c9Tweet], .callError "x"] = none := by
  have h := c9_invalid_result_rejected d0 c9Tweet [] [.callError "x"]
    (Or.inl (by rfl))
  exact ⟨h.1, h.2, by rw [h.2]; rfl⟩

/-! ## Claim C5: the YouTube scraper -/

/-- Removing the first slash of `"/" ++ id` yields `id`. -/
theorem removeFirstSlash_slash_append (id : String) :
    removeFirstSlash ("/" ++ id) = id := rfl

/-- `splitSlash.go` on a slash-free run closes the current segment. -/
theorem splitSlash_go_no_slash (cs : List Char) :
    ∀ (cur : List Char) (acc : List String), (∀ c ∈ cs, c ≠ '/') →
    splitSlash.go cs cur acc = String.mk (cur.reverse ++ cs) :: acc := by
  induction cs with
  | nil => intro cur acc _; simp [splitSlash.go]
  | cons c t ih =>
      intro cur acc h
      have hc : c ≠ '/' := h c (List.mem_cons_self c t)
      rw [splitSlash.go, if_neg hc, ih (c :: cur) acc
        (fun x hx => h x (List.mem_cons_of_mem c hx))]
      simp

/-- `split('/')` of a shorts path gives `["", "shorts", id]` when the
id carries no slash. -/
theorem splitSlash_shorts (id : String) (h : ∀ c ∈ id.data, c ≠ '/') :
    splitSlash ("/shorts/" ++ id) = ["", "shorts", id] := by
  unfold splitSlash
  have hstep : splitSlash.go ("/shorts/" ++ id).data [] [] =
      splitSlash.go id.data []
        [String.mk ['s', 'h', 'o', 'r', 't', 's'], String.mk []] := rfl
  rw [hstep, splitSlash_go_no_slash id.data [] _ h]
  rfl

/-- String append appends the character data. -/
theorem strData_append (a b : String) : (a ++ b).data = a.data ++ b.data := rfl

/-- A string starts with any of its prefixes. -/
theorem strStarts_append (p s : String) : strStarts (p ++ s) p = true := by
  simp [strStarts, strData_append, List.isPrefixOf_iff_prefix, List.prefix_append]

/-- C5 counterexample inputs: a plain watch URL, no oEmbed data, but
Open-Graph metadata carrying a description. -/
def ytWatchUrl : YtUrl :=
  { hostname := "www.youtube.com", pathname := "/watch"
    searchParams := [("v", "abc123")] }

/-- C5 counterexample Open-Graph metadata. -/
def c5Og : OgMeta :=
  { title := some "T", description := some "A video about llamas"
    image := some "https://i.ytimg.com/vi/abc123/hq.jpg" }

/-- C5 (counterexample).  The source scraper consults no Open-Graph
data at all (its `description` is always `none`), while the claimed
oEmbed+Open-Graph combination would surface the page description: the
code does not implement the claimed parallel OG sub-call. -/
theorem c5_counterexample :
    (YouTubeScraper.scrape (some ytWatchUrl) none).description = none ∧
    (specYouTubeScrape (some ytWatchUrl) none c5Og).description =
      some "A video about llamas" ∧
    (none : Option String) ≠ some "A video about llamas" := by
  refine ⟨rfl, rfl, ?_⟩
  decide

/-- C5 (amended): the YouTube scraper performs only the public oEmbed
lookup plus pure embed-URL synthesis and always returns: its
description and body text are always empty (no Open-Graph/HTML
scraping exists), a failed oEmbed lookup degrades the result to one
with no title, no author and no thumbnail, the synthesized embed URL
becomes the single video entry, and the embed URL is synthesized from
exactly the three accepted URL shapes — `youtu.be/<id>`, `watch?v=`,
and `/shorts/<id>`. -/
theorem c5_oembed_only_scrape (u : Option YtUrl)
    (oembed : Option YouTubeOEmbedResponse) :
    (YouTubeScraper.scrape u oembed).description = none ∧
    (YouTubeScraper.scrape u oembed).bodyText = none ∧
    ((YouTubeScraper.scrape u none).title = none ∧
      (YouTubeScraper.scrape u none).authorName = none ∧
      (YouTubeScraper.scrape u none).images = []) ∧
    (∀ e, YouTubeScraper.getEmbedUrl u = some e →
      (YouTubeScraper.scrape u oembed).videos.map (·.url) = [e]) ∧
    (∀ (h id : String) (q : List (String × String)),
      strContains h "youtu.be" = true → id ≠ "" →
      YouTubeScraper.getEmbedUrl
        (some { hostname := h, pathname := "/" ++ id, searchParams := q }) =
        some ("https://www.youtube.com/embed/" ++ id)) ∧
    (∀ (h p id : String), strContains h "youtu.be" = false → id ≠ "" →
      YouTubeScraper.getEmbedUrl
        (some { hostname := h, pathname := p, searchParams := [("v", id)] }) =
        some ("https://www.youtube.com/embed/" ++ id)) ∧
    (∀ (h id : String), strContains h "youtu.be" = false → id ≠ "" →
      (∀ c ∈ id.data, c ≠ '/') →
      YouTubeScraper.getEmbedUrl
        (some { hostname := h, pathname := "/shorts/" ++ id, searchParams := [] }) =
        some ("https://www.youtube.com/embed/" ++ id)) := by
  refine ⟨rfl, rfl, ⟨rfl, rfl, rfl⟩, fun e he => ?_, fun h id q hh hid => ?_,
    fun h p id hh hid => ?_, fun h id hh hid hslash => ?_⟩
  · simp [YouTubeScraper.scrape, he]
  · simp only [YouTubeScraper.getEmbedUrl, hh, if_true]
    rw [removeFirstSlash_slash_append, if_pos hid]
  · simp only [YouTubeScraper.getEmbedUrl, hh]
    simp [hid]
  · simp only [YouTubeScraper.getEmbedUrl, hh]
    simp only [List.find?_nil, Option.map_none]
    simp only [YouTubeScraper.getEmbedUrl.shortsEmbed]
    rw [if_pos (strStarts_append "/shorts/" id), splitSlash_shorts id hslash]
    simp [hid]

/-- C5 witness input: a youtu.be short-link URL. -/
def ytBeUrl : YtUrl :=
  { hostname := "youtu.be", pathname := "/" ++ "abc123", searchParams := [] }

/-- C5 witness input: a shorts URL. -/
def ytShortsUrl : YtUrl :=
  { hostname := "www.youtube.com", pathname := "/shorts/" ++ "abc123"
    searchParams := [] }

/-- C5 witness: the amended theorem at concrete inputs — the three URL
shapes synthesize their embed URLs, and a failed oEmbed lookup leaves
a partial result without a title. -/
theorem c5_oembed_only_scrape_witness :
    YouTubeScraper.getEmbedUrl (some ytBeUrl) =
      some ("https://www.youtube.com/embed/" ++ "abc123") ∧
    YouTubeScraper.getEmbedUrl (some ytWatchUrl) =
      some ("https://www.youtube.com/embed/" ++ "abc123") ∧
    YouTubeScraper.getEmbedUrl (some ytShortsUrl) =
      some ("https://www.youtube.com/embed/" ++ "abc123") ∧
    (YouTubeScraper.scrape (some ytWatchUrl) none).title = none := by
  have h1 := (c5_oembed_only_scrape (some ytBeUrl) none).2.2.2.2.1
    "youtu.be" "abc123" [] rfl (by decide)
  have h2 := (c5_oembed_only_scrape (some ytWatchUrl) none).2.2.2.2.2.1
    "www.youtube.com" "/watch" "abc123" rfl (by decide)
  have h3 := (c5_oembed_only_scrape (some ytShortsUrl) none).2.2.2.2.2.2
    "www.youtube.com" "abc123" rfl (by decide) (by decide)
  exact ⟨h1, h2, h3, (c5_oembed_only_scrape (some ytWatchUrl) none).2.2.1.1⟩

/-! ## Claim C8: search relevance scoring -/

/-- The keyword-boost fold of the scoring loop, in closed form: 25 per
keyword matching the title, 15 per keyword matching the description,
10 per keyword matching the summary, each keyword counted
independently. -/
theorem score_foldl (item : SearchItem) : ∀ (ks : List String) (b : Int),
    ks.foldl (fun sc k =>
      let kl := strLower k
      let sc := if optContainsCI item.title kl then sc + 25 else sc
      let sc := if optContainsCI item.description kl then sc + 15 else sc
      if optContainsCI item.summary kl then sc + 10 else sc) b =
    b + 25 * (ks.countP (fun k => optContainsCI item.title (strLower k)) : Int) +
    15 * (ks.countP (fun k => optContainsCI item.description (strLower k)) : Int) +
    10 * (ks.countP (fun k => optContainsCI item.summary (strLower k)) : Int) := by
  intro ks
  induction ks with
  | nil => intro b; simp
  | cons k t ih =>
      intro b
      simp only [List.foldl_cons]
      rw [ih]
      simp only [List.countP_cons]
      split_ifs <;> push_cast <;> ring

/-- The score of a candidate in closed form. -/
theorem scoreItem_formula (intent : SearchIntent) (item : SearchItem)
    (index : Nat) :
    scoreItem intent item index =
      (100 - (index : Int)) +
      25 * (intent.keywords.countP
        (fun k => optContainsCI item.title (strLower k)) : Int) +
      15 * (intent.keywords.countP
        (fun k => optContainsCI item.description (strLower k)) : Int) +
      10 * (intent.keywords.countP
        (fun k => optContainsCI item.summary (strLower k)) : Int) +
      (if intent.topics.length > 0 ∧ item.topics ≠ none then
        5 * ((intent.topics.filter (fun t => (item.topics.getD []).any
          (fun it => strLower it = strLower t))).length : Int)
      else 0) := by
  unfold scoreItem
  dsimp only
  rw [score_foldl]
  split_ifs <;> ring

/-- An element of a `resultMap.set` result is an old element or the
inserted one. -/
theorem mapSet_mem (m : List ScoredItem) (v e : ScoredItem)
    (h : e ∈ mapSet m v) : e ∈ m ∨ e = v := by
  unfold mapSet at h
  split at h
  · obtain ⟨y, hy, he⟩ := List.mem_map.mp h
    by_cases hid : y.item.id = v.item.id
    · right
      rw [← he, if_pos hid]
    · left
      rw [← he, if_neg hid]
      exact hy
  · rcases List.mem_append.mp h with h | h
    · exact Or.inl h
    · exact Or.inr (by simpa using h)

/-- Every entry the scoring `forEach` stores carries the score of its
candidate at the candidate position in the store order. -/
theorem buildScored_go_mem (intent : SearchIntent) :
    ∀ (l : List SearchItem) (i : Nat) (acc : List ScoredItem) (e : ScoredItem),
    e ∈ buildScored.go intent i acc l →
    e ∈ acc ∨ ∃ j item, l[j]? = some item ∧ e.item = item ∧
      e.score = scoreItem intent item (i + j) := by
  intro l
  induction l with
  | nil =>
      intro i acc e he
      exact Or.inl he
  | cons x xs ih =>
      intro i acc e he
      rw [buildScored.go] at he
      rcases ih (i + 1) _ e he with hacc | ⟨j, item, hj, hi, hs⟩
      · rcases mapSet_mem _ _ _ hacc with h | h
        · exact Or.inl h
        · refine Or.inr ⟨0, x, by simp, ?_, ?_⟩
          · rw [h]
          · rw [h, Nat.add_zero]
      · refine Or.inr ⟨j + 1, item, by simpa using hj, hi, ?_⟩
        rw [hs]
        congr 1
        omega

/-- Elements of an insertion are the inserted element or old ones. -/
theorem insertDesc_mem (x e : ScoredItem) : ∀ l, e ∈ insertDesc x l →
    e = x ∨ e ∈ l := by
  intro l
  induction l with
  | nil =>
      intro h
      rw [insertDesc] at h
      exact Or.inl (by simpa using h)
  | cons y ys ih =>
      intro h
      rw [insertDesc] at h
      split at h
      · rcases List.mem_cons.mp h with h | h
        · exact Or.inr (List.mem_cons.mpr (Or.inl h))
        · rcases ih h with h | h
          · exact Or.inl h
          · exact Or.inr (List.mem_cons.mpr (Or.inr h))
      · rcases List.mem_cons.mp h with h | h
        · exact Or.inl h
        · exact Or.inr h

/-- Insertion preserves descending sortedness by score. -/
theorem insertDesc_sorted (x : ScoredItem) : ∀ (l : List ScoredItem),
    l.Sorted (fun a b => b.score ≤ a.score) →
    (insertDesc x l).Sorted (fun a b => b.score ≤ a.score) := by
  intro l
  induction l with
  | nil =>
      intro _
      simp [insertDesc]
  | cons y ys ih =>
      intro h
      rw [List.sorted_cons] at h
      obtain ⟨hy, hys⟩ := h
      rw [insertDesc]
      split
      · rename_i hgt
        rw [List.sorted_cons]
        refine ⟨fun b hb => ?_, ih hys⟩
        rcases insertDesc_mem x b ys hb with hb | hb
        · rw [hb]
          omega
        · exact hy b hb
      · rename_i hle
        rw [List.sorted_cons]
        refine ⟨fun b hb => ?_, List.sorted_cons.mpr ⟨hy, hys⟩⟩
        rcases List.mem_cons.mp hb with hb | hb
        · rw [hb]
          omega
        · have := hy b hb
          omega

/-- The re-ranking sort leaves the scored list sorted descending. -/
theorem sortByScoreDesc_sorted : ∀ (l : List ScoredItem),
    (sortByScoreDesc l).Sorted (fun a b => b.score ≤ a.score) := by
  intro l
  induction l with
  | nil => simp [sortByScoreDesc]
  | cons x xs ih =>
      rw [sortByScoreDesc]
      exact insertDesc_sorted x _ ih

/-- C8 (confirmed): every scored candidate's score is its base
`100 − position` in the store's native ordering plus 25 per keyword
substring-matching the title, 15 per keyword matching the description,
10 per keyword matching the summary (independently and additively)
plus 5 per intent topic case-insensitively equal to a candidate topic;
the ranked list is sorted descending by this score; and, all else
equal, a candidate matching a keyword in its title scores strictly
higher than one matching only in body text. -/
theorem c8_search_scoring :
    (∀ (intent : SearchIntent) (item : SearchItem) (index : Nat),
      scoreItem intent item index =
        (100 - (index : Int)) +
        25 * (intent.keywords.countP
          (fun k => optContainsCI item.title (strLower k)) : Int) +
        15 * (intent.keywords.countP
          (fun k => optContainsCI item.description (strLower k)) : Int) +
        10 * (intent.keywords.countP
          (fun k => optContainsCI item.summary (strLower k)) : Int) +
        (if intent.topics.length > 0 ∧ item.topics ≠ none then
          5 * ((intent.topics.filter (fun t => (item.topics.getD []).any
            (fun it => strLower it = strLower t))).length : Int)
        else 0)) ∧
    (∀ (intent : SearchIntent) (results : List SearchItem) (e : ScoredItem),
      e ∈ buildScored intent results →
      ∃ j item, results[j]? = some item ∧ e.item = item ∧
        e.score = scoreItem intent item j) ∧
    (∀ (intent : SearchIntent) (results : List SearchItem),
      (sortByScoreDesc (buildScored intent results)).Sorted
        (fun a b => b.score ≤ a.score)) ∧
    (∀ (intent : SearchIntent) (item1 item2 : SearchItem) (index : Nat)
      (k : String), k ∈ intent.keywords →
      optContainsCI item1.title (strLower k) = true →
      (∀ k' ∈ intent.keywords,
        optContainsCI item2.title (strLower k') = false ∧
        optContainsCI item2.description (strLower k') = false ∧
        optContainsCI item2.summary (strLower k') = false) →
      item1.topics = item2.topics →
      scoreItem intent item2 index < scoreItem intent item1 index) := by
  refine ⟨scoreItem_formula, ?_, fun intent results => sortByScoreDesc_sorted _,
    ?_⟩
  · intro intent results e he
    rcases buildScored_go_mem intent results 0 [] e he with h | ⟨j, item, hj, hi, hs⟩
    · simp at h
    · exact ⟨j, item, hj, hi, by rw [hs, Nat.zero_add]⟩
  · intro intent item1 item2 index k hk hkt hnone htop
    rw [scoreItem_formula, scoreItem_formula]
    have h1 : 0 < intent.keywords.countP
        (fun k' => optContainsCI item1.title (strLower k')) :=
      List.countP_pos_iff.mpr ⟨k, hk, hkt⟩
    have h2 : intent.keywords.countP
        (fun k' => optContainsCI item2.title (strLower k')) = 0 :=
      List.countP_eq_zero.mpr (fun a ha => by simp [(hnone a ha).1])
    have h3 : intent.keywords.countP
        (fun k' => optContainsCI item2.description (strLower k')) = 0 :=
      List.countP_eq_zero.mpr (fun a ha => by simp [(hnone a ha).2.1])
    have h4 : intent.keywords.countP
        (fun k' => optContainsCI item2.summary (strLower k')) = 0 :=
      List.countP_eq_zero.mpr (fun a ha => by simp [(hnone a ha).2.2])
    rw [h2, h3, h4, ← htop]
    have h5 : (0:Nat) ≤ intent.keywords.countP
        (fun k' => optContainsCI item1.description (strLower k')) := Nat.zero_le _
    omega

/-- C8 witness inputs: one-keyword intent, a title-matching candidate
and a body-only-matching candidate. -/
def c8Intent : SearchIntent := { keywords := ["llama"] }

/-- C8 witness title-matching candidate. -/
def c8Item1 : SearchItem := { id := "1", title := some "Llama facts" }

/-- C8 witness body-only candidate. -/
def c8Item2 : SearchItem := { id := "2", body_text := some "a llama article" }

/-- C8 witness: the scoring theorem applied to the concrete pair — the
title match scores strictly higher at equal base position, and the
concrete ranked list is sorted. -/
theorem c8_search_scoring_witness :
    scoreItem c8Intent c8Item2 0 < scoreItem c8Intent c8Item1 0 ∧
    (sortByScoreDesc (buildScored c8Intent [c8Item1, c8Item2])).Sorted
      (fun a b => b.score ≤ a.score) := by
  refine ⟨c8_search_scoring.2.2.2 c8Intent c8Item1 c8Item2 0 "llama"
    (by decide) (by rfl) ?_ rfl, c8_search_scoring.2.2.1 c8Intent [c8Item1, c8Item2]⟩
  intro k' hk'
  have hk : k' = "llama" := by simpa [c8Intent] using hk'
  subst hk
  exact ⟨rfl, rfl, rfl⟩

end LittlePlains
